import Mathlib

/-
Verification of the downmix orchestration tool (src/main.rs).

The program is a thin wrapper around two external subprocesses: it validates
its two path arguments, invokes ffprobe to obtain JSON stream metadata,
scans the reported channel counts, and invokes ffmpeg to downmix to stereo
exactly when some stream reports more than 2 channels.

The embedding below models one run of fn main as a pure function over a
World record holding the outcome of every filesystem query and subprocess
invocation the program can make, and records the externally observable
behaviour (exit, which subprocesses were invoked and with which arguments,
and whether the no-downmix message was printed).
-/

set_option maxHeartbeats 1000000

namespace Downmix

/-- JSON values as produced by the metadata probe (a model of
serde_json::Value). A JSON number is either representable as a signed
64-bit integer (numInt) or not (numOther, covering floats and
out-of-range magnitudes, on which as_i64 fails). -/
inductive Json where
  | null
  | bool (b : Bool)
  | numInt (n : Int)
  | numOther
  | str (s : String)
  | arr (elems : List Json)
  | obj (fields : List (String × Json))

/-- Key lookup in a JSON object's field list (a model of the map lookup
performed by serde_json's Value::get). -/
def lookupField : List (String × Json) → String → Option Json
  | [], _ => none
  | (k, v) :: rest, key => if k = key then some v else lookupField rest key

/-- Model of Value::get with a string index: a field lookup on objects,
none on every other value. -/
def Json.get : Json → String → Option Json
  | .obj fields, key => lookupField fields key
  | _, _ => none

/-- Model of Value::as_array. -/
def Json.as_array : Json → Option (List Json)
  | .arr elems => some elems
  | _ => none

/-- Model of Value::as_i64: succeeds exactly on i64-representable numbers. -/
def Json.as_i64 : Json → Option Int
  | .numInt n => some n
  | _ => none

/-- The JSON key under which ffprobe reports the stream records. -/
def streamsKey : String := "streams"

/-- The JSON key under which a stream record reports its channel count. -/
def channelsKey : String := "channels"

/-- Model of a filesystem path argument: its UTF-8 rendering when one
exists (Path::to_str) and its lossy rendering (Path::display). -/
structure FsPath where
  toStr : Option String
  display : String

/-- Model of the parsed command line (struct Args in main.rs). -/
structure Args where
  input_path : FsPath
  output_path : FsPath
  quiet : Bool
  force : Bool

/-- Model of an I/O error (std::io::Error carried by anyhow). -/
structure IoErr where
  msg : String

/-- Model of std::process::Output for a finished subprocess: its exit
status, the serde_json parse of its captured stdout (none when the bytes
are not valid JSON), and its captured stderr. The program never consults
the status field. -/
structure CmdOutput where
  status : Int
  stdoutJson : Option Json
  stderr : String

/-- Environment of one run: the outcome of each filesystem query and of
the two subprocess invocations main.rs can make. -/
structure World where
  inputTryExists : Except IoErr Bool
  inputIsFile : Bool
  outputTryExists : Except IoErr Bool
  ffprobe : Except IoErr CmdOutput
  ffmpeg : Except IoErr CmdOutput

/-- Terminal errors of a run (the anyhow error cases of main.rs, each
carrying the context the program attaches). -/
inductive RunError where
  | ioErr (e : IoErr)
  | inputNotExists (p : String)
  | inputNotFile (p : String)
  | outputExists (p : String)
  | invalidInputPath (p : String)
  | probeStderr (s : String)
  | jsonParseErr
  | invalidJson
  | invalidMetadataValue
  | invalidOutputPath (p : String)
  | ffmpegStderr (s : String)

/-- How the process ends: a zero exit, an anyhow error (nonzero exit), or
a panic. -/
inductive Exit where
  | success
  | failure (e : RunError)
  | panicked

/-- Whether an exit is the panic outcome. -/
def Exit.isPanic : Exit → Bool
  | .panicked => true
  | _ => false

/-- Observable outcome of a run: the exit, whether the ffprobe subprocess
was invoked, the argument list of the ffmpeg invocation when one was
attempted, and whether the no-downmix message was printed. -/
structure RunResult where
  exit : Exit
  probeCalled : Bool
  ffmpegCall : Option (List String)
  printedNoDownmix : Bool

/-- Observable outcome of fn downmix alone. -/
structure DownmixResult where
  exit : Exit
  ffmpegCall : Option (List String)

/-- The channel scan of main.rs lines 77-89: walk the stream records in
order, skip a record without a channels field, fail on a channels value
that is not an i64, and otherwise accumulate whether any count exceeds 2. -/
def checkChannels : List Json → Except Unit Bool
  | [] => .ok false
  | stream :: rest =>
    match stream.get channelsKey with
    | none => checkChannels rest
    | some ch =>
      match ch.as_i64 with
      | none => .error ()
      | some n =>
        match checkChannels rest with
        | .error e => .error e
        | .ok b => .ok (decide (2 < n) || b)

/-- The channel counts the scan extracts, in stream order: records without
a channels field are skipped, and a non-i64 channels value is an error. -/
def channelsOf : List Json → Except Unit (List Int)
  | [] => .ok []
  | stream :: rest =>
    match stream.get channelsKey with
    | none => channelsOf rest
    | some ch =>
      match ch.as_i64 with
      | none => .error ()
      | some n =>
        match channelsOf rest with
        | .error e => .error e
        | .ok ns => .ok (n :: ns)

/-- The fixed ffmpeg argument list built by fn downmix (main.rs lines
110-124). -/
def ffmpegArgsOf (inStr outStr : String) : List String :=
  ["-i", inStr, "-hide_banner", "-loglevel", "error", "-y", "-c:v", "copy", "-ac", "2", outStr]

/-- Model of fn downmix (main.rs lines 109-137): build the fixed ffmpeg
argument list, unwrapping input_path.to_str (a panic on a non-UTF-8 input
path) and converting output_path.to_str with an error context, invoke
ffmpeg, and succeed exactly when its captured stderr is empty. -/
def downmix (args : Args) (w : World) : DownmixResult :=
  match args.input_path.toStr with
  | none => ⟨.panicked, none⟩
  | some inStr =>
    match args.output_path.toStr with
    | none => ⟨.failure (.invalidOutputPath args.output_path.display), none⟩
    | some outStr =>
      match w.ffmpeg with
      | .error e => ⟨.failure (.ioErr e), some (ffmpegArgsOf inStr outStr)⟩
      | .ok out =>
        if out.stderr = "" then ⟨.success, some (ffmpegArgsOf inStr outStr)⟩
        else ⟨.failure (.ffmpegStderr out.stderr), some (ffmpegArgsOf inStr outStr)⟩

/-- Model of main.rs lines 71-106: parse the probe stdout as JSON, extract
the streams array, scan the channel counts, and either downmix or print
the no-downmix message and exit successfully. -/
def parseAndDecide (args : Args) (w : World) (stdoutJson : Option Json) : RunResult :=
  match stdoutJson with
  | none => ⟨.failure .jsonParseErr, true, none, false⟩
  | some j =>
    match (j.get streamsKey).bind Json.as_array with
    | none => ⟨.failure .invalidJson, true, none, false⟩
    | some streams =>
      match checkChannels streams with
      | .error _ => ⟨.failure .invalidMetadataValue, true, none, false⟩
      | .ok tooMany =>
        if tooMany then
          let d := downmix args w
          ⟨d.exit, true, d.ffmpegCall, false⟩
        else ⟨.success, true, none, true⟩

/-- Model of main.rs lines 52-106: convert input_path to a str (an error
on a non-UTF-8 path, before any subprocess), invoke ffprobe, require an
empty captured stderr, then parse the metadata and decide. -/
def inspectAndDecide (args : Args) (w : World) : RunResult :=
  match args.input_path.toStr with
  | none => ⟨.failure (.invalidInputPath args.input_path.display), false, none, false⟩
  | some _ =>
    match w.ffprobe with
    | .error e => ⟨.failure (.ioErr e), true, none, false⟩
    | .ok out =>
      if out.stderr = "" then parseAndDecide args w out.stdoutJson
      else ⟨.failure (.probeStderr out.stderr), true, none, false⟩

/-- Model of fn main (main.rs lines 22-107): require the input path to
exist and be a regular file, require the output path to be absent unless
force is set, then inspect and decide. -/
def run (args : Args) (w : World) : RunResult :=
  match w.inputTryExists with
  | .error e => ⟨.failure (.ioErr e), false, none, false⟩
  | .ok iex =>
    if iex then
      if w.inputIsFile then
        if args.force then inspectAndDecide args w
        else
          match w.outputTryExists with
          | .error e => ⟨.failure (.ioErr e), false, none, false⟩
          | .ok oex =>
            if oex then ⟨.failure (.outputExists args.output_path.display), false, none, false⟩
            else inspectAndDecide args w
      else ⟨.failure (.inputNotFile args.input_path.display), false, none, false⟩
    else ⟨.failure (.inputNotExists args.input_path.display), false, none, false⟩

/-- Example UTF-8 input path rendering used by the concrete witnesses. -/
def inPathStr : String := "in.mkv"

/-- Example UTF-8 output path rendering used by the concrete witnesses. -/
def outPathStr : String := "out.mkv"

/-- Example input path value. -/
def pInEx : FsPath := ⟨some inPathStr, inPathStr⟩

/-- Example output path value. -/
def pOutEx : FsPath := ⟨some outPathStr, outPathStr⟩

/-- Example parsed command line without the force flag. -/
def argsEx : Args := ⟨pInEx, pOutEx, false, false⟩

/-- Example stream record reporting a channel count. -/
def streamRec (n : Int) : Json := Json.obj [(channelsKey, Json.numInt n)]

/-- Example probe document reporting the given channel counts. -/
def probeJson (ns : List Int) : Json :=
  Json.obj [(streamsKey, Json.arr (ns.map streamRec))]

/-- Example successful probe output reporting the given channel counts. -/
def probeOut (ns : List Int) : CmdOutput := ⟨0, some (probeJson ns), ""⟩

/-- Example successful ffmpeg output. -/
def ffmpegOut : CmdOutput := ⟨0, none, ""⟩

/-- Example environment with valid input, absent output and the given
subprocess outcomes. -/
def worldOf (probe ffm : Except IoErr CmdOutput) : World :=
  ⟨.ok true, true, .ok false, probe, ffm⟩

/-- Environment whose probe reports a 6-channel stream. -/
def wSurround : World := worldOf (.ok (probeOut [1, 2, 6])) (.ok ffmpegOut)

/-- Environment in which the output path already exists. -/
def wOutExists : World := ⟨.ok true, true, .ok true, .ok (probeOut [2]), .ok ffmpegOut⟩

/-- Environment in which the input path does not exist. -/
def wMissingInput : World := ⟨.ok false, true, .ok false, .ok (probeOut [2]), .ok ffmpegOut⟩

/-- Environment in which the input path exists but is not a regular file. -/
def wDirInput : World := ⟨.ok true, false, .ok false, .ok (probeOut [2]), .ok ffmpegOut⟩

/-- Example probe stderr text. -/
def probeWarnMsg : String := "deprecated option"

/-- Probe output that exits with status 0 yet writes on stderr. -/
def probeWarn : CmdOutput := ⟨0, some (probeJson [6]), probeWarnMsg⟩

/-- Environment whose probe writes on stderr. -/
def wProbeWarn : World := worldOf (.ok probeWarn) (.ok ffmpegOut)

/-- Probe output whose stdout is not valid JSON. -/
def badJsonOut : CmdOutput := ⟨0, none, ""⟩

/-- Environment whose probe emits invalid JSON. -/
def wBadJson : World := worldOf (.ok badJsonOut) (.ok ffmpegOut)

/-- Probe output whose JSON document lacks a streams field. -/
def noStreamsOut : CmdOutput := ⟨0, some (Json.obj []), ""⟩

/-- Environment whose probe emits a document without a streams field. -/
def wNoStreams : World := worldOf (.ok noStreamsOut) (.ok ffmpegOut)

/-- Example non-numeric channel value. -/
def chanStr : String := "five"

/-- Probe document with a non-numeric channels field. -/
def nonNumJson : Json :=
  Json.obj [(streamsKey, Json.arr [Json.obj [(channelsKey, Json.str chanStr)]])]

/-- Probe output with a non-numeric channels field. -/
def nonNumOut : CmdOutput := ⟨0, some nonNumJson, ""⟩

/-- Environment whose probe reports a non-numeric channel value. -/
def wNonNum : World := worldOf (.ok nonNumOut) (.ok ffmpegOut)

/-- Probe document with one stream record carrying no channels field. -/
def noFieldJson : Json := Json.obj [(streamsKey, Json.arr [Json.obj []])]

/-- Probe output with one stream record carrying no channels field. -/
def noFieldOut : CmdOutput := ⟨0, some noFieldJson, ""⟩

/-- Environment whose probe reports only a stream without a channels field. -/
def wNoField : World := worldOf (.ok noFieldOut) (.ok ffmpegOut)

/-- Environment whose probe reports a negative channel count. -/
def wNeg : World := worldOf (.ok (probeOut [-5])) (.ok ffmpegOut)

/-- Once both input checks pass and the output check passes (the output
path is absent), the run proceeds to the inspection phase, whatever the
force flag is. -/
theorem run_validated (args : Args) (w : World)
    (hin : w.inputTryExists = .ok true) (hfile : w.inputIsFile = true)
    (hout : w.outputTryExists = .ok false) :
    run args w = inspectAndDecide args w := by
  unfold run
  rw [hin]
  cases hf : args.force <;> simp [hfile, hf, hout]

/-- Once the input path converts to a str and ffprobe returns with empty
stderr, the inspection phase is the parse phase on the probe stdout. -/
theorem inspect_eval (args : Args) (w : World) (s : String) (out : CmdOutput)
    (hi : args.input_path.toStr = some s) (hp : w.ffprobe = .ok out)
    (hs : out.stderr = "") :
    inspectAndDecide args w = parseAndDecide args w out.stdoutJson := by
  unfold inspectAndDecide
  rw [hi, hp]
  simp [hs]

/-- The channel scan computes, over the channel counts it extracts,
whether any count exceeds 2. -/
theorem checkChannels_eq (l : List Json) :
    checkChannels l = (channelsOf l).map (fun ns => ns.any (fun n => decide (2 < n))) := by
  induction l with
  | nil => rfl
  | cons stream rest ih =>
    unfold checkChannels channelsOf
    cases stream.get channelsKey with
    | none => exact ih
    | some ch =>
      dsimp only
      cases ch.as_i64 with
      | none => rfl
      | some n =>
        dsimp only
        rw [ih]
        cases channelsOf rest <;> simp [Except.map]

/-- A stream list in which no record carries a channels field scans to a
false decision. -/
theorem checkChannels_all_none (l : List Json)
    (h : ∀ s ∈ l, Json.get s channelsKey = none) :
    checkChannels l = .ok false := by
  induction l with
  | nil => rfl
  | cons stream rest ih =>
    unfold checkChannels
    rw [h stream (List.mem_cons_self stream rest)]
    exact ih fun s hs => h s (List.mem_cons_of_mem stream hs)

/-- When the input path converts to a str, fn downmix does not panic. -/
theorem downmix_no_panic (args : Args) (w : World) (s : String)
    (hi : args.input_path.toStr = some s) :
    (downmix args w).exit.isPanic = false := by
  unfold downmix
  rw [hi]
  dsimp only
  cases args.output_path.toStr with
  | none => rfl
  | some o =>
    dsimp only
    cases w.ffmpeg with
    | error e => rfl
    | ok out =>
      dsimp only
      by_cases hs : out.stderr = "" <;> simp [hs, Exit.isPanic]

/-- When the input path converts to a str, the parse phase does not panic. -/
theorem parse_no_panic (args : Args) (w : World) (sj : Option Json) (s : String)
    (hi : args.input_path.toStr = some s) :
    (parseAndDecide args w sj).exit.isPanic = false := by
  unfold parseAndDecide
  cases sj with
  | none => rfl
  | some j =>
    dsimp only
    cases (j.get streamsKey).bind Json.as_array with
    | none => rfl
    | some streams =>
      dsimp only
      cases checkChannels streams with
      | error e => rfl
      | ok b =>
        dsimp only
        cases b with
        | false => rfl
        | true => simpa using downmix_no_panic args w s hi

/-- The inspection phase never panics: fn downmix is only reached after
input_path.to_str has succeeded. -/
theorem inspect_no_panic (args : Args) (w : World) :
    (inspectAndDecide args w).exit.isPanic = false := by
  unfold inspectAndDecide
  cases hi : args.input_path.toStr with
  | none => rfl
  | some s =>
    dsimp only
    cases w.ffprobe with
    | error e => rfl
    | ok out =>
      dsimp only
      by_cases hs : out.stderr = ""
      · simpa [hs] using parse_no_panic args w out.stdoutJson s hi
      · simp [hs, Exit.isPanic]

/-- The inspection phase never fails with the output-exists error. -/
theorem inspect_ne_outputExists (args : Args) (w : World) (p : String) :
    (inspectAndDecide args w).exit ≠ .failure (.outputExists p) := by
  unfold inspectAndDecide
  cases hi : args.input_path.toStr with
  | none => simp
  | some s =>
    dsimp only
    cases w.ffprobe with
    | error e => simp
    | ok out =>
      dsimp only
      by_cases hs : out.stderr = ""
      · simp only [hs, if_true]
        unfold parseAndDecide
        cases out.stdoutJson with
        | none => simp
        | some j =>
          dsimp only
          cases (j.get streamsKey).bind Json.as_array with
          | none => simp
          | some streams =>
            dsimp only
            cases checkChannels streams with
            | error e => simp
            | ok b =>
              dsimp only
              cases b with
              | false => simp
              | true =>
                simp only [if_true]
                unfold downmix
                rw [hi]
                dsimp only
                cases args.output_path.toStr with
                | none => simp
                | some o =>
                  dsimp only
                  cases w.ffmpeg with
                  | error e => simp
                  | ok outT =>
                    dsimp only
                    by_cases ht : outT.stderr = "" <;> simp [ht]
      · simp [hs]

/-- The run either attempts no ffmpeg invocation or attempts exactly the
one fn downmix builds. -/
theorem run_ffmpegCall_cases (args : Args) (w : World) :
    (run args w).ffmpegCall = none ∨
      (run args w).ffmpegCall = (downmix args w).ffmpegCall := by
  unfold run
  cases w.inputTryExists with
  | error e => exact Or.inl rfl
  | ok iex =>
    dsimp only
    cases iex with
    | false => exact Or.inl rfl
    | true =>
      cases hfile : w.inputIsFile with
      | false => simp
      | true =>
        have hInspect : (inspectAndDecide args w).ffmpegCall = none ∨
            (inspectAndDecide args w).ffmpegCall = (downmix args w).ffmpegCall := by
          unfold inspectAndDecide
          cases args.input_path.toStr with
          | none => exact Or.inl rfl
          | some s =>
            dsimp only
            cases w.ffprobe with
            | error e => exact Or.inl rfl
            | ok out =>
              dsimp only
              by_cases hs : out.stderr = ""
              · simp only [hs, if_true]
                unfold parseAndDecide
                cases out.stdoutJson with
                | none => exact Or.inl rfl
                | some j =>
                  dsimp only
                  cases (j.get streamsKey).bind Json.as_array with
                  | none => exact Or.inl rfl
                  | some streams =>
                    dsimp only
                    cases checkChannels streams with
                    | error e => exact Or.inl rfl
                    | ok b =>
                      dsimp only
                      cases b with
                      | false => exact Or.inl rfl
                      | true => exact Or.inr rfl
              · simp [hs]
        cases args.force with
        | true => simpa using hInspect
        | false =>
          cases w.outputTryExists with
          | error e => simp
          | ok oex =>
            dsimp only
            cases oex with
            | false => simpa using hInspect
            | true => simp

/-- A run either reaches the inspection phase or stops during validation
with some failure, no subprocess invoked and no message printed. -/
theorem run_cases (args : Args) (w : World) :
    run args w = inspectAndDecide args w ∨
      ∃ e, run args w = ⟨.failure e, false, none, false⟩ := by
  unfold run
  cases w.inputTryExists with
  | error e => exact Or.inr ⟨_, rfl⟩
  | ok iex =>
    cases iex with
    | false => exact Or.inr ⟨_, rfl⟩
    | true =>
      cases w.inputIsFile with
      | false => exact Or.inr ⟨_, rfl⟩
      | true =>
        cases args.force with
        | true => exact Or.inl rfl
        | false =>
          cases w.outputTryExists with
          | error e => exact Or.inr ⟨_, rfl⟩
          | ok oex =>
            cases oex with
            | true => exact Or.inr ⟨_, rfl⟩
            | false => exact Or.inl rfl

/-- C10: the unwrap of input_path.to_str inside fn downmix can never
panic: fn downmix is only reached after main has already converted the
same input path to a str successfully (returning an error otherwise), so
no run of the program ends in a panic. -/
theorem downmix_unwrap_never_panics (args : Args) (w : World) :
    (run args w).exit.isPanic = false := by
  rcases run_cases args w with h | ⟨e, h⟩
  · rw [h]
    exact inspect_no_panic args w
  · rw [h]
    rfl

/-- C3: before any subprocess is spawned, main checks that the input path
exists and is a regular file, and exits with a descriptive error naming
the path when either check fails; in both failure cases neither the probe
nor the transcoder is invoked. -/
theorem input_path_validation (args : Args) (w : World) :
    (w.inputTryExists = .ok false →
      run args w =
        ⟨.failure (.inputNotExists args.input_path.display), false, none, false⟩)
    ∧ (w.inputTryExists = .ok true → w.inputIsFile = false →
      run args w =
        ⟨.failure (.inputNotFile args.input_path.display), false, none, false⟩) := by
  constructor
  · intro h
    unfold run
    rw [h]
    rfl
  · intro h hf
    unfold run
    rw [h]
    dsimp only
    rw [hf]
    rfl

/-- C2: with a valid input path, the run fails path validation before
invoking any external tool exactly when the output path already exists
and force is not set; when force is set the run proceeds past validation
to the inspection phase regardless of the output path. -/
theorem output_overwrite_validation (args : Args) (w : World) (b : Bool)
    (hin : w.inputTryExists = .ok true) (hfile : w.inputIsFile = true)
    (hout : w.outputTryExists = .ok b) :
    (((run args w).exit = .failure (.outputExists args.output_path.display)
        ∧ (run args w).probeCalled = false ∧ (run args w).ffmpegCall = none)
      ↔ (b = true ∧ args.force = false))
    ∧ (args.force = true → run args w = inspectAndDecide args w) := by
  cases hf : args.force with
  | true =>
    have hrun : run args w = inspectAndDecide args w := by
      unfold run
      rw [hin]
      simp [hfile, hf]
    refine ⟨?_, fun _ => hrun⟩
    rw [hrun]
    simp [hf, inspect_ne_outputExists args w args.output_path.display]
  | false =>
    cases b with
    | false =>
      have hrun := run_validated args w hin hfile hout
      refine ⟨?_, fun hft => absurd hft (by simp [hf])⟩
      rw [hrun]
      simp [inspect_ne_outputExists args w args.output_path.display]
    | true =>
      have hrun : run args w =
          ⟨.failure (.outputExists args.output_path.display), false, none, false⟩ := by
        unfold run
        rw [hin]
        simp [hfile, hf, hout]
      refine ⟨?_, fun hft => absurd hft (by simp [hf])⟩
      rw [hrun]
      simp [hf]

/-- C4: for both subprocess invocations the call is treated as successful
exactly when the captured stderr is empty, regardless of the exit status
(the status field of CmdOutput, quantified freely here, is never
consulted): a non-empty probe stderr terminates the run with an error
carrying that text and no transcoder invocation; an empty probe stderr
lets the run proceed to the parse phase; fn downmix succeeds exactly when
the ffmpeg stderr is empty, its error carrying the captured text. -/
theorem empty_stderr_success_policy (args : Args) (w : World)
    (out outT : CmdOutput) (i o : String)
    (hin : w.inputTryExists = .ok true) (hfile : w.inputIsFile = true)
    (hout : w.outputTryExists = .ok false)
    (hi : args.input_path.toStr = some i) (ho : args.output_path.toStr = some o)
    (hp : w.ffprobe = .ok out) (hm : w.ffmpeg = .ok outT) :
    (out.stderr ≠ "" →
      (run args w).exit = .failure (.probeStderr out.stderr)
        ∧ (run args w).ffmpegCall = none)
    ∧ (out.stderr = "" → run args w = parseAndDecide args w out.stdoutJson)
    ∧ (downmix args w).ffmpegCall = some (ffmpegArgsOf i o)
    ∧ (downmix args w).exit =
        (if outT.stderr = "" then .success else .failure (.ffmpegStderr outT.stderr)) := by
  have hrun := run_validated args w hin hfile hout
  have hinsp : inspectAndDecide args w =
      if out.stderr = "" then parseAndDecide args w out.stdoutJson
      else ⟨.failure (.probeStderr out.stderr), true, none, false⟩ := by
    unfold inspectAndDecide
    rw [hi]
    dsimp only
    rw [hp]
  have hdm : downmix args w =
      ⟨if outT.stderr = "" then .success else .failure (.ffmpegStderr outT.stderr),
        some (ffmpegArgsOf i o)⟩ := by
    unfold downmix
    rw [hi]
    dsimp only
    rw [ho]
    dsimp only
    rw [hm]
    dsimp only
    by_cases ht : outT.stderr = "" <;> simp [ht]
  refine ⟨fun hne => ?_, fun he => ?_, ?_, ?_⟩
  · rw [hrun, hinsp, if_neg hne]
    exact ⟨rfl, rfl⟩
  · rw [hrun, hinsp, if_pos he]
  · rw [hdm]
  · rw [hdm]

/-- C5: when the probe stdout is not valid JSON, or its streams field is
absent or not an array, the run fails with the corresponding metadata
error and the transcoder is never invoked. -/
theorem malformed_metadata_errors (args : Args) (w : World) (out : CmdOutput)
    (i : String)
    (hin : w.inputTryExists = .ok true) (hfile : w.inputIsFile = true)
    (hout : w.outputTryExists = .ok false)
    (hi : args.input_path.toStr = some i)
    (hp : w.ffprobe = .ok out) (hs : out.stderr = "") :
    (out.stdoutJson = none →
      (run args w).exit = .failure .jsonParseErr ∧ (run args w).ffmpegCall = none)
    ∧ (∀ j, out.stdoutJson = some j →
        (j.get streamsKey).bind Json.as_array = none →
        (run args w).exit = .failure .invalidJson ∧ (run args w).ffmpegCall = none) := by
  have hrun : run args w = parseAndDecide args w out.stdoutJson :=
    (run_validated args w hin hfile hout).trans (inspect_eval args w i out hi hp hs)
  constructor
  · intro hj
    rw [hrun, hj]
    exact ⟨rfl, rfl⟩
  · intro j hj hstr
    rw [hrun, hj]
    unfold parseAndDecide
    dsimp only
    rw [hstr]
    exact ⟨rfl, rfl⟩

/-- C6: a stream record without a channels field is silently skipped by
the scan; a record whose channels field is present but not an i64 makes
the scan fail, and then the whole run fails with the invalid-metadata
error and no transcoder invocation; a numeric channels field is extracted
as its integer value. -/
theorem channel_field_handling (args : Args) (w : World) (out : CmdOutput)
    (i : String) (j : Json) (streams : List Json)
    (hin : w.inputTryExists = .ok true) (hfile : w.inputIsFile = true)
    (hout : w.outputTryExists = .ok false)
    (hi : args.input_path.toStr = some i)
    (hp : w.ffprobe = .ok out) (hs : out.stderr = "")
    (hj : out.stdoutJson = some j)
    (hstr : (j.get streamsKey).bind Json.as_array = some streams) :
    (∀ s rest, Json.get s channelsKey = none →
      checkChannels (s :: rest) = checkChannels rest)
    ∧ (∀ s rest ch, Json.get s channelsKey = some ch → Json.as_i64 ch = none →
      checkChannels (s :: rest) = .error ())
    ∧ (∀ n, Json.as_i64 (Json.numInt n) = some n)
    ∧ (checkChannels streams = .error () →
      (run args w).exit = .failure .invalidMetadataValue
        ∧ (run args w).ffmpegCall = none) := by
  have hrun : run args w = parseAndDecide args w out.stdoutJson :=
    (run_validated args w hin hfile hout).trans (inspect_eval args w i out hi hp hs)
  refine ⟨?_, ?_, fun n => rfl, ?_⟩
  · intro s rest hnone
    simp only [checkChannels, hnone]
  · intro s rest ch hch hnum
    simp only [checkChannels, hch, hnum]
  · intro herr
    rw [hrun, hj]
    unfold parseAndDecide
    dsimp only
    rw [hstr]
    dsimp only
    rw [herr]
    exact ⟨rfl, rfl⟩

/-- C7: whenever the input and output paths convert to strs, the
transcoder invocation fn downmix attempts is exactly the fixed argument
list reading the input, hiding the banner, logging errors only, always
overwriting, copying video and forcing 2 audio channels; and any
transcoder invocation a whole run attempts is that same list. -/
theorem transcoder_fixed_argument_list (args : Args) (w : World) (i o : String)
    (hi : args.input_path.toStr = some i) (ho : args.output_path.toStr = some o) :
    (downmix args w).ffmpegCall =
      some ["-i", i, "-hide_banner", "-loglevel", "error", "-y", "-c:v", "copy", "-ac", "2", o]
    ∧ ∀ l, (run args w).ffmpegCall = some l →
      l = ["-i", i, "-hide_banner", "-loglevel", "error", "-y", "-c:v", "copy", "-ac", "2", o] := by
  have hdm : (downmix args w).ffmpegCall = some (ffmpegArgsOf i o) := by
    unfold downmix
    rw [hi]
    dsimp only
    rw [ho]
    dsimp only
    cases w.ffmpeg with
    | error e => rfl
    | ok out =>
      dsimp only
      by_cases ht : out.stderr = "" <;> simp [ht]
  refine ⟨hdm, fun l hl => ?_⟩
  rcases run_ffmpegCall_cases args w with h | h
  · rw [h] at hl
    exact absurd hl (by simp)
  · rw [h, hdm] at hl
    exact (Option.some.inj hl).symm

/-- C1: on a run whose probe report parses and whose channel counts all
extract, the transcoder is invoked if and only if at least one extracted
channel count is greater than 2; when every count is at most 2 the run
invokes no transcoder, prints the no-downmix message and exits
successfully. -/
theorem decision_invokes_transcoder_iff (args : Args) (w : World) (out : CmdOutput)
    (i o : String) (j : Json) (streams : List Json) (chans : List Int)
    (hin : w.inputTryExists = .ok true) (hfile : w.inputIsFile = true)
    (hout : w.outputTryExists = .ok false)
    (hi : args.input_path.toStr = some i) (ho : args.output_path.toStr = some o)
    (hp : w.ffprobe = .ok out) (hs : out.stderr = "")
    (hj : out.stdoutJson = some j)
    (hstr : (j.get streamsKey).bind Json.as_array = some streams)
    (hch : channelsOf streams = .ok chans) :
    ((run args w).ffmpegCall.isSome = chans.any (fun n => decide (2 < n)))
    ∧ (chans.any (fun n => decide (2 < n)) = false →
      run args w = ⟨.success, true, none, true⟩) := by
  have hcheck : checkChannels streams = .ok (chans.any (fun n => decide (2 < n))) := by
    rw [checkChannels_eq, hch]
    rfl
  have hrun : run args w = parseAndDecide args w out.stdoutJson :=
    (run_validated args w hin hfile hout).trans (inspect_eval args w i out hi hp hs)
  rw [hrun, hj]
  unfold parseAndDecide
  dsimp only
  rw [hstr]
  dsimp only
  rw [hcheck]
  dsimp only
  cases hA : chans.any (fun n => decide (2 < n)) with
  | false => exact ⟨rfl, fun _ => rfl⟩
  | true =>
    refine ⟨?_, fun hfalse => absurd hfalse (by simp)⟩
    dsimp only
    unfold downmix
    rw [hi]
    dsimp only
    rw [ho]
    dsimp only
    cases w.ffmpeg with
    | error e => rfl
    | ok outT =>
      dsimp only
      by_cases ht : outT.stderr = "" <;> simp [ht]

/-- C8: when the streams array is empty or no stream record carries a
channels field, the decision is vacuously false: the run prints the
no-downmix message, invokes no transcoder and exits successfully. -/
theorem vacuous_decision_no_downmix (args : Args) (w : World) (out : CmdOutput)
    (i : String) (j : Json) (streams : List Json)
    (hin : w.inputTryExists = .ok true) (hfile : w.inputIsFile = true)
    (hout : w.outputTryExists = .ok false)
    (hi : args.input_path.toStr = some i)
    (hp : w.ffprobe = .ok out) (hs : out.stderr = "")
    (hj : out.stdoutJson = some j)
    (hstr : (j.get streamsKey).bind Json.as_array = some streams)
    (hall : ∀ s ∈ streams, Json.get s channelsKey = none) :
    run args w = ⟨.success, true, none, true⟩ := by
  have hrun : run args w = parseAndDecide args w out.stdoutJson :=
    (run_validated args w hin hfile hout).trans (inspect_eval args w i out hi hp hs)
  rw [hrun, hj]
  unfold parseAndDecide
  dsimp only
  rw [hstr]
  dsimp only
  rw [checkChannels_all_none streams hall]
  rfl

/-- C9: the channel extraction performs no range check: any integer,
negative or zero included, extracts successfully, and a report whose only
stream carries such a count at most 2 never triggers a downmix, the run
exiting successfully with the no-downmix message. -/
theorem channel_value_unchecked_range (args : Args) (w : World) (out : CmdOutput)
    (i : String) (n : Int)
    (hin : w.inputTryExists = .ok true) (hfile : w.inputIsFile = true)
    (hout : w.outputTryExists = .ok false)
    (hi : args.input_path.toStr = some i)
    (hp : w.ffprobe = .ok out) (hs : out.stderr = "")
    (hj : out.stdoutJson =
      some (Json.obj [(streamsKey, Json.arr [Json.obj [(channelsKey, Json.numInt n)]])]))
    (hn : n ≤ 2) :
    Json.as_i64 (Json.numInt n) = some n
    ∧ run args w = ⟨.success, true, none, true⟩ := by
  refine ⟨rfl, ?_⟩
  have hrun : run args w = parseAndDecide args w out.stdoutJson :=
    (run_validated args w hin hfile hout).trans (inspect_eval args w i out hi hp hs)
  rw [hrun, hj]
  unfold parseAndDecide
  dsimp only
  have hstr : ((Json.obj
        [(streamsKey, Json.arr [Json.obj [(channelsKey, Json.numInt n)]])]).get
      streamsKey).bind Json.as_array
      = some [Json.obj [(channelsKey, Json.numInt n)]] := rfl
  rw [hstr]
  dsimp only
  have hcheck : checkChannels [Json.obj [(channelsKey, Json.numInt n)]]
      = .ok (decide (2 < n) || false) := rfl
  rw [hcheck]
  have h2 : decide (2 < n) = false := decide_eq_false (not_lt.mpr hn)
  rw [h2]
  rfl

/-- Witness for C1 on a probe report with channel counts 1, 2 and 6. -/
theorem decision_invokes_transcoder_iff_witness :
    ((run argsEx wSurround).ffmpegCall.isSome
        = [(1 : Int), 2, 6].any (fun n => decide (2 < n)))
    ∧ ([(1 : Int), 2, 6].any (fun n => decide (2 < n)) = false →
      run argsEx wSurround = ⟨.success, true, none, true⟩) :=
  decision_invokes_transcoder_iff argsEx wSurround (probeOut [1, 2, 6])
    inPathStr outPathStr (probeJson [1, 2, 6]) ([1, 2, 6].map streamRec) [1, 2, 6]
    rfl rfl rfl rfl rfl rfl rfl rfl rfl rfl

/-- Witness for C2 on an existing output path without the force flag. -/
theorem output_overwrite_validation_witness :
    ((((run argsEx wOutExists).exit
          = .failure (.outputExists argsEx.output_path.display)
        ∧ (run argsEx wOutExists).probeCalled = false
        ∧ (run argsEx wOutExists).ffmpegCall = none)
      ↔ (true = true ∧ argsEx.force = false))
    ∧ (argsEx.force = true →
      run argsEx wOutExists = inspectAndDecide argsEx wOutExists)) :=
  output_overwrite_validation argsEx wOutExists true rfl rfl rfl

/-- Witness for C3 on a missing input and on a non-file input. -/
theorem input_path_validation_witness :
    (wMissingInput.inputTryExists = .ok false
      ∧ run argsEx wMissingInput =
        ⟨.failure (.inputNotExists argsEx.input_path.display), false, none, false⟩)
    ∧ (wDirInput.inputTryExists = .ok true ∧ wDirInput.inputIsFile = false
      ∧ run argsEx wDirInput =
        ⟨.failure (.inputNotFile argsEx.input_path.display), false, none, false⟩) :=
  ⟨⟨rfl, (input_path_validation argsEx wMissingInput).1 rfl⟩,
   rfl, rfl, (input_path_validation argsEx wDirInput).2 rfl rfl⟩

/-- Witness for C4: a probe that exits with status 0 yet writes on stderr
is a failure carrying that text, and an ffmpeg run with empty stderr is a
success with the fixed argument list. -/
theorem empty_stderr_success_policy_witness :
    probeWarn.stderr ≠ ""
    ∧ (run argsEx wProbeWarn).exit = .failure (.probeStderr probeWarn.stderr)
    ∧ (run argsEx wProbeWarn).ffmpegCall = none
    ∧ (downmix argsEx wProbeWarn).ffmpegCall = some (ffmpegArgsOf inPathStr outPathStr)
    ∧ (downmix argsEx wProbeWarn).exit = .success :=
  have h := empty_stderr_success_policy argsEx wProbeWarn probeWarn ffmpegOut
    inPathStr outPathStr rfl rfl rfl rfl rfl rfl rfl
  have hne : probeWarn.stderr ≠ "" := by decide
  ⟨hne, (h.1 hne).1, (h.1 hne).2, h.2.2.1, by rw [h.2.2.2]; rfl⟩

/-- Witness for C5 on invalid probe JSON and on a document lacking a
streams array. -/
theorem malformed_metadata_errors_witness :
    ((run argsEx wBadJson).exit = .failure .jsonParseErr
      ∧ (run argsEx wBadJson).ffmpegCall = none)
    ∧ ((run argsEx wNoStreams).exit = .failure .invalidJson
      ∧ (run argsEx wNoStreams).ffmpegCall = none) :=
  ⟨(malformed_metadata_errors argsEx wBadJson badJsonOut inPathStr
      rfl rfl rfl rfl rfl rfl).1 rfl,
   (malformed_metadata_errors argsEx wNoStreams noStreamsOut inPathStr
      rfl rfl rfl rfl rfl rfl).2 (Json.obj []) rfl rfl⟩

/-- Witness for C6 on a report with a non-numeric channels field. -/
theorem channel_field_handling_witness :
    checkChannels [Json.obj [(channelsKey, Json.str chanStr)]] = .error ()
    ∧ (run argsEx wNonNum).exit = .failure .invalidMetadataValue
    ∧ (run argsEx wNonNum).ffmpegCall = none :=
  have h := channel_field_handling argsEx wNonNum nonNumOut inPathStr nonNumJson
    [Json.obj [(channelsKey, Json.str chanStr)]] rfl rfl rfl rfl rfl rfl rfl rfl
  ⟨rfl, (h.2.2.2 rfl).1, (h.2.2.2 rfl).2⟩

/-- Witness for C7 on the example paths and a 6-channel report. -/
theorem transcoder_fixed_argument_list_witness :
    (downmix argsEx wSurround).ffmpegCall =
      some ["-i", inPathStr, "-hide_banner", "-loglevel", "error", "-y", "-c:v",
        "copy", "-ac", "2", outPathStr]
    ∧ ffmpegArgsOf inPathStr outPathStr =
      ["-i", inPathStr, "-hide_banner", "-loglevel", "error", "-y", "-c:v",
        "copy", "-ac", "2", outPathStr] :=
  have h := transcoder_fixed_argument_list argsEx wSurround inPathStr outPathStr rfl rfl
  ⟨h.1, h.2 (ffmpegArgsOf inPathStr outPathStr) rfl⟩

/-- Witness for C8 on a report whose only stream has no channels field. -/
theorem vacuous_decision_no_downmix_witness :
    run argsEx wNoField = ⟨.success, true, none, true⟩ :=
  vacuous_decision_no_downmix argsEx wNoField noFieldOut inPathStr noFieldJson
    [Json.obj []] rfl rfl rfl rfl rfl rfl rfl rfl
    (by
      intro s hs
      simp only [List.mem_singleton] at hs
      subst hs
      rfl)

/-- Witness for C9 on a report with a negative channel count. -/
theorem channel_value_unchecked_range_witness :
    (-5 : Int) ≤ 2
    ∧ Json.as_i64 (Json.numInt (-5)) = some (-5)
    ∧ run argsEx wNeg = ⟨.success, true, none, true⟩ :=
  have h := channel_value_unchecked_range argsEx wNeg (probeOut [-5]) inPathStr (-5)
    rfl rfl rfl rfl rfl rfl rfl (by decide)
  ⟨by decide, h.1, h.2⟩

end Downmix
